import Mathlib

/-!
Verification development for the youtube-summarizer repository.

The definitions below are a shallow embedding of the Python sources:

* `extract_video_id`, `is_valid_url`    — summarizer/youtube.py, class YouTubeURLValidator
* `load_from_cache`, `save_to_cache`,
  `get_transcript`                      — summarizer/youtube.py, class YouTubeTranscriptExtractor
* `save_summary`, `get_summary_path`    — summarizer/file_handler.py, class FileHandler
* `summarize_video`,
  `summarize_video_flow`                — summarizer/app.py, class YouTubeSummarizer

Machine strings are `String` / `List Char`; file systems are explicit maps or
listings threaded through the functions; Python exceptions are an explicit
error type in `Except`.
-/

/-- Python-level errors raised by the pipeline. -/
inductive PyErr where
  | valueError (msg : String)
  | typeError (msg : String)
  | transcriptsDisabledErr (msg : String)
  | noTranscriptFoundErr (videoId : String)
  | other (msg : String)
deriving DecidableEq, Repr

/-! ## URL validation (youtube.py, YouTubeURLValidator) -/

/-- Search semantics of one compiled pattern of `URL_PATTERNS` (youtube.py:21-27).
Each pattern is `(?:https?://)?(?:www\.)?<literal needle>(<capture>+)` where the
capture class excludes the characters given by `excl`.  Because both scheme and
`www.` groups are optional and do not feed the capture group, `re.search` on such
a pattern returns, at the leftmost position where the literal needle occurs with a
non-empty capture behind it, the maximal run of non-excluded characters. -/
def searchPat (needle : List Char) (excl : Char → Bool) : List Char → Option (List Char)
  | [] => none
  | c :: rest =>
    if needle.isPrefixOf (c :: rest) then
      let cap := ((c :: rest).drop needle.length).takeWhile (fun ch => !excl ch)
      if cap.isEmpty then searchPat needle excl rest
      else some cap
    else searchPat needle excl rest

/-- Literal core of the standard watch-URL pattern (youtube.py:23). -/
def watchNeedle : List Char := "youtube.com/watch?v=".data

/-- Literal core of the embed-URL pattern (youtube.py:24). -/
def embedNeedle : List Char := "youtube.com/embed/".data

/-- Literal core of the short-URL pattern (youtube.py:25). -/
def shortNeedle : List Char := "youtu.be/".data

/-- Literal core of the old-format pattern (youtube.py:26). -/
def oldNeedle : List Char := "youtube.com/v/".data

/-- Characters allowed in a URL scheme by urllib.parse. -/
def isSchemeChar (c : Char) : Bool :=
  c.isAlphanum || c == '+' || c == '-' || c == '.'

/-- Drop a leading `scheme:` as urllib.parse.urlparse does: the text before the
first colon must be non-empty, start with a letter and consist of scheme
characters, otherwise the URL is left unchanged. -/
def splitScheme (l : List Char) : List Char :=
  match l.span (fun c => c ≠ ':') with
  | (b :: bs, ':' :: rest) =>
    if b.isAlpha && (b :: bs).all isSchemeChar then rest else l
  | _ => l

/-- The netloc component of urllib.parse.urlparse: present only when the text
after the scheme starts with a double slash, and runs until a slash, question
mark or hash. -/
def urlNetloc (l : List Char) : List Char :=
  match splitScheme l with
  | '/' :: '/' :: rest => rest.takeWhile (fun c => c ≠ '/' && c ≠ '?' && c ≠ '#')
  | _ => []

/-- The query component of urllib.parse.urlparse: the text after the first
question mark, with any fragment (after a hash) removed first. -/
def urlQuery (l : List Char) : List Char :=
  match (l.takeWhile (fun c => c ≠ '#')).dropWhile (fun c => c ≠ '?') with
  | _ :: q => q
  | [] => []

/-- Split a query string on ampersands. -/
def splitOnAmp : List Char → List (List Char)
  | [] => [[]]
  | '&' :: rest => [] :: splitOnAmp rest
  | c :: rest =>
    match splitOnAmp rest with
    | [] => [[c]]
    | f :: fs => (c :: f) :: fs

/-- `parse_qs(query)["v"][0]` when present: the first ampersand-separated field
of the form `v=<non-empty value>` (parse_qs drops blank values by default). -/
def parse_qs_v (q : List Char) : Option (List Char) :=
  (splitOnAmp q).findSome? (fun field =>
    match field.span (fun c => c ≠ '=') with
    | (k, _ :: v) => if k = ['v'] && !v.isEmpty then some v else none
    | (_, []) => none)

/-- The pattern loop of `extract_video_id` (youtube.py:44-47): try each compiled
pattern in declaration order and return the first capture. -/
def extractByPatterns (l : List Char) : Option (List Char) :=
  match searchPat watchNeedle (fun c => c == '&') l with
  | some cap => some cap
  | none =>
    match searchPat embedNeedle (fun c => c == '/' || c == '?') l with
    | some cap => some cap
    | none =>
      match searchPat shortNeedle (fun c => c == '/' || c == '?') l with
      | some cap => some cap
      | none => searchPat oldNeedle (fun c => c == '/' || c == '?') l

/-- `YouTubeURLValidator.extract_video_id` (youtube.py:33-56): the pattern loop,
then the urlparse fallback that inspects the `v` query parameter for the two
youtube.com netlocs. -/
def extract_video_id (url : String) : Option String :=
  match extractByPatterns url.data with
  | some cap => some (String.mk cap)
  | none =>
    if urlNetloc url.data = "www.youtube.com".data ∨ urlNetloc url.data = "youtube.com".data then
      (parse_qs_v (urlQuery url.data)).map String.mk
    else none

/-- `YouTubeURLValidator.is_valid_url` (youtube.py:58-68). -/
def is_valid_url (url : String) : Bool :=
  (extract_video_id url).isSome

/-! ## Transcript cache and transcript extraction (youtube.py, YouTubeTranscriptExtractor) -/

/-- Content of one transcript-cache file: a parsed JSON object with string
fields, valid JSON that is not an object (an array, string or number), or
content that json.load rejects. -/
inductive CacheContent where
  | jsonObj (fields : List (String × String))
  | jsonNonObj
  | corrupt
deriving DecidableEq

/-- The transcript-cache directory: a map from file path to file content. -/
def Fs : Type := String → Option CacheContent

/-- Write one file into the cache directory. -/
def fsUpdate (fs : Fs) (p : String) (c : CacheContent) : Fs :=
  fun q => if q = p then some c else fs q

/-- `_get_cache_path` (youtube.py:112-114) for the default cache directory. -/
def get_cache_path (video_id language : String) : String :=
  "cache/transcripts" ++ "/" ++ video_id ++ "_" ++ language ++ ".json"

/-- `_load_from_cache` (youtube.py:116-129): a missing file is a miss; content
that fails json.load (JSONDecodeError) or a parsed object without a transcript
field (KeyError) are caught at youtube.py:126 and turned into a miss; but
valid JSON that is not an object makes the subscript `data["transcript"]` at
youtube.py:125 raise TypeError, which the except clause does not catch, so the
error propagates to the caller.  The differing Python messages for list,
string and number subscripts are collapsed into the list one. -/
def load_from_cache (fs : Fs) (video_id language : String) :
    Except String (Option String) :=
  match fs (get_cache_path video_id language) with
  | none => .ok none
  | some .corrupt => .ok none
  | some .jsonNonObj => .error "list indices must be integers or slices, not str"
  | some (.jsonObj fields) =>
    match fields.lookup "transcript" with
    | some t => .ok (some t)
    | none => .ok none

/-- The body of the try block of `_save_to_cache` (youtube.py:134-146): dump the
three-field object to the cache path; `writeOk` is whether the file write
succeeds. -/
def save_to_cache_attempt (fs : Fs) (video_id language transcript : String)
    (writeOk : Bool) : Except String Fs :=
  if writeOk then
    .ok (fsUpdate fs (get_cache_path video_id language)
      (.jsonObj [("video_id", video_id), ("language", language), ("transcript", transcript)]))
  else .error "write failed"

/-- `_save_to_cache` (youtube.py:131-148): any failure of the write is caught,
logged and swallowed, leaving the cache unchanged. -/
def save_to_cache (fs : Fs) (video_id language transcript : String)
    (writeOk : Bool) : Except String Fs :=
  match save_to_cache_attempt fs video_id language transcript writeOk with
  | .ok fs2 => .ok fs2
  | .error _ => .ok fs

/-- Behaviour of TranscriptList.find_transcript of the youtube_transcript_api
package, an external capability: the requested language codes are tried in
order and the first one for which the video has a track is selected; with no
match the lookup signals NoTranscriptFound.  `available` lists the language
codes of the tracks of the video. -/
def find_transcript (available langs : List String) : Option String :=
  langs.find? (fun l => available.contains l)

/-- `retry_times` (youtube.py:211). -/
def retry_times : Nat := 5

/-- The retry loop of `get_transcript` (youtube.py:212-222): `for i in range(n)`
over successive outcomes of transcript.fetch(); a success breaks out of the
loop, a failure on the last iteration re-raises the error of that attempt, any
earlier failure is logged and the loop continues.  Returns the fetched snippet
texts together with the number of attempts performed. -/
def retryFetch : List (Except String (List String)) → Nat → Except String (List String × Nat)
  | _, 0 => .error "loop not entered"
  | [], _ + 1 => .error "no fetch outcome"
  | o :: _, 1 =>
    match o with
    | .ok d => .ok (d, 1)
    | .error e => .error e
  | o :: os, n + 2 =>
    match o with
    | .ok d => .ok (d, 1)
    | .error _ =>
      match retryFetch os (n + 1) with
      | .ok (d, k) => .ok (d, k + 1)
      | .error e => .error e

/-- Environment of one `get_transcript` call: the transcript-cache state, whether
the provider reports transcripts disabled for the video, the language codes of
the available tracks, the stream of outcomes of successive transcript.fetch()
attempts, and whether the cache write succeeds. -/
structure YTState where
  cacheFs : Fs
  transcriptsDisabled : Bool
  available : List String
  fetchOutcomes : List (Except String (List String))
  writeOk : Bool

/-- The fetch path of `get_transcript` (youtube.py:202-231) together with its
except clauses (youtube.py:233-243): list the tracks (TranscriptsDisabled is
re-raised with a message), select a track from the requested language or the
fixed priority list `ru`, `en` (a failed lookup re-raises NoTranscriptFound),
resolve the language, fetch the body under the retry loop (an exhausted loop
re-raises the final error, which the generic except clause wraps as
`Error fetching transcript: ...`), join the snippet texts with newlines, and
store the result in the transcript cache.  Returns the result, the cache state
after the call, and the number of fetch attempts performed. -/
def get_transcript_fetch (st : YTState) (video_id : String) (language : Option String) :
    Except PyErr (String × String × String) × Fs × Nat :=
  if st.transcriptsDisabled then
    (.error (.transcriptsDisabledErr ("Transcripts are disabled for video: " ++ video_id)),
      st.cacheFs, 0)
  else
    match find_transcript st.available
        (match language with | some l => [l] | none => ["ru", "en"]) with
    | none => (.error (.noTranscriptFoundErr video_id), st.cacheFs, 0)
    | some trackLang =>
      let lang := language.getD trackLang
      match retryFetch st.fetchOutcomes retry_times with
      | .error e =>
        (.error (.other ("Error fetching transcript: " ++ e)), st.cacheFs, retry_times)
      | .ok (snippets, k) =>
        let formatted := String.intercalate "\n" snippets
        let fs2 :=
          match save_to_cache st.cacheFs video_id lang formatted st.writeOk with
          | .ok f => f
          | .error _ => st.cacheFs
        (.ok (video_id, lang, formatted), fs2, k)

/-- `get_transcript` (youtube.py:179-243): when a language is requested the
transcript cache is consulted first and a non-empty cached text is returned
with zero fetch attempts (the guard `if cached_transcript:` treats an empty
string as a miss); a TypeError raised by the cache read is wrapped by the
generic except clause; otherwise the fetch path runs. -/
def get_transcript (st : YTState) (video_id : String) (language : Option String) :
    Except PyErr (String × String × String) × Fs × Nat :=
  match language with
  | some l =>
    match load_from_cache st.cacheFs video_id l with
    | .error e =>
      -- the TypeError escapes _load_from_cache inside the try block and the
      -- generic except clause (youtube.py:242-243) wraps it
      (.error (.other ("Error fetching transcript: " ++ e)), st.cacheFs, 0)
    | .ok (some t) =>
      if t ≠ "" then (.ok (video_id, l, t), st.cacheFs, 0)
      else get_transcript_fetch st video_id language
    | .ok none => get_transcript_fetch st video_id language
  | none => get_transcript_fetch st video_id language

/-! ## Summary files (file_handler.py, FileHandler) -/

/-- One file in the output directory: name, modification time, content. -/
structure OutFile where
  name : List Char
  mtime : Nat
  content : String
deriving DecidableEq

/-- The output directory of the FileHandler: its directory listing. -/
structure FHState where
  files : List OutFile
deriving DecidableEq

/-- Name of the file written by `save_summary` (file_handler.py:78-79):
`summary_<video_id>_<timestamp>.md`. -/
def summaryFileName (video_id timestamp : String) : List Char :=
  "summary_".data ++ video_id.data ++ "_".data ++ timestamp.data ++ ".md".data

/-- The fixed part before the `*` of the glob pattern of `get_summary_path`
(file_handler.py:127): `summary_<video_id>_`. -/
def summaryGlobPre (video_id : String) : List Char :=
  "summary_".data ++ video_id.data ++ "_".data

/-- The fixed part after the `*` of the glob pattern of `get_summary_path`
(file_handler.py:127): `.txt`. -/
def txtSuffix : List Char := ".txt".data

/-- Match of a glob pattern `<pre>*<suf>` against a file name: the name starts
with `pre`, ends with `suf`, and the two fixed parts do not overlap. -/
def globMatch (pre suf name : List Char) : Bool :=
  pre.isPrefixOf name && suf.reverse.isPrefixOf name.reverse
    && decide (pre.length + suf.length ≤ name.length)

/-- The markdown document written by `save_summary` (file_handler.py:86-97). -/
def renderMarkdown (video_id summary timestamp : String)
    (metadata : List (String × String)) : String :=
  "# Summary for Video " ++ video_id ++ "\n\n## Summary\n" ++ summary
    ++ "\n\n## Metadata\n"
    ++ String.join (metadata.map (fun kv => "- **" ++ kv.1 ++ "**: " ++ kv.2 ++ "\n"))
    ++ "\nGenerated on: " ++ timestamp

/-- `FileHandler.save_summary` (file_handler.py:59-114): write the rendered
markdown document to `summary_<video_id>_<timestamp>.md` in the output
directory (mode `w` replaces a file of the same name) and return the path.
`timestamp` is the formatted current time, `mtime` the modification time the
new file receives. -/
def save_summary (st : FHState) (video_id summary : String)
    (metadata : List (String × String)) (timestamp : String) (mtime : Nat) :
    FHState × OutFile :=
  let f : OutFile :=
    ⟨summaryFileName video_id timestamp, mtime,
      renderMarkdown video_id summary timestamp metadata⟩
  (⟨st.files.filter (fun g => g.name ≠ f.name) ++ [f]⟩, f)

/-- `FileHandler.get_summary_path` (file_handler.py:116-138): glob the output
directory for `summary_<video_id>_*.txt` and return the file with the greatest
modification time (Python max returns the first of several maxima), or None if
nothing matches. -/
def get_summary_path (st : FHState) (video_id : String) : Option OutFile :=
  match st.files.filter (fun f => globMatch (summaryGlobPre video_id) txtSuffix f.name) with
  | [] => none
  | f :: fs => some (fs.foldl (fun best g => if best.mtime < g.mtime then g else best) f)

/-! ## Pipeline orchestrator (app.py, YouTubeSummarizer.summarize_video) -/

/-- Return value of the pipeline: the bare summary text, or the dictionary
returned when the caller asked for the transcript (app.py:121-128). -/
inductive AppResult where
  | text (s : String)
  | bundle (video_id language transcript : String)
      (summary : Option String) (summaryError : Option String)
deriving DecidableEq

/-- `YouTubeSummarizer.summarize_video` (app.py:47-137) as executed by Python:
inputs are validated and the video id extracted (app.py:74-83), then the call
`self.transcript_extractor.get_transcript(video_id)` (app.py:86-88) passes a
single argument while `get_transcript` (youtube.py:179) declares the required
positional parameter `language` with no default, so Python raises TypeError at
that call site, before the callee body runs; the outer except clause re-raises
it.  (The later call sites are likewise mis-matched: app.py:92 passes two
arguments to the one-parameter `get_summary_path`, and app.py:116-118 passes
three data arguments to `save_summary`, which takes two plus optional
metadata; they are never reached.)  The trailing parameters of the Python
signature do not influence the outcome and are kept for shape. -/
def summarize_video (url : String) (max_tokens : Option Int) (_save_to_file : Bool)
    (_metadata : List (String × String))
    (_include_transcript _allow_summary_failure : Bool) : Except PyErr AppResult :=
  if !is_valid_url url then .error (.valueError "Invalid YouTube URL")
  else if (match max_tokens with | some m => decide (m ≤ 0) | none => false) then
    .error (.valueError "max_tokens must be positive")
  else
    match extract_video_id url with
    | none => .error (.valueError "Invalid YouTube URL")
    | some _ =>
      .error (.typeError
        "get_transcript() missing 1 required positional argument: language")

/-- Observable steps of one pipeline run. -/
inductive Ev where
  | fetchTranscript
  | summaryCacheLookup
  | summaryCacheHit
  | summarizeCall
  | saveSummary
deriving DecidableEq

deriving instance DecidableEq for Except

/-- Output of one run of the pipeline dataflow: the result, the output
directory after the run, and the trace of observable steps. -/
structure FlowOut where
  result : Except PyErr AppResult
  fh : FHState
  events : List Ev
deriving DecidableEq

/-- The summary-cache read of app.py:92-99 as one unit: the located file is in
the directory listing, so the os.path.exists guard holds and its content is
read. -/
def cachedSummary (st : FHState) (video_id : String) : Option String :=
  (get_summary_path st video_id).map (fun f => f.content)

/-- The dataflow of the body of `summarize_video` (app.py:74-137), with the
mis-matched call sites of app.py:86, app.py:92 and app.py:116 bound to the
declared callee parameters (the Python-level arity TypeError those calls
actually raise is the subject of `summarize_video` above): `get_transcript`
receives language None since the call supplies none, `get_summary_path` and
`save_summary` receive the video id, summary and metadata they declare.  The
remaining logic follows the source line by line: validation, id extraction,
transcript fetch, summary-cache lookup (app.py:92-99, a hit reads the cached
file), generation when not cached (app.py:102-112, a failure is re-raised
unless the caller set both include_transcript and allow_summary_failure),
persistence when requested, a truthy summary was newly generated and no cached
path existed (app.py:115-118), and response shaping (app.py:121-133).
`summaryResult` is the outcome of the GeminiSummarizer.summarize call;
`timestamp` and `mtime` feed the file write. -/
def summarize_video_flow (yst : YTState) (fh : FHState)
    (summaryResult : Except String String) (url : String) (max_tokens : Option Int)
    (save_to_file : Bool) (metadata : List (String × String))
    (include_transcript allow_summary_failure : Bool)
    (timestamp : String) (mtime : Nat) : FlowOut :=
  if !is_valid_url url then ⟨.error (.valueError "Invalid YouTube URL"), fh, []⟩
  else if (match max_tokens with | some m => decide (m ≤ 0) | none => false) then
    ⟨.error (.valueError "max_tokens must be positive"), fh, []⟩
  else
    match extract_video_id url with
    | none => ⟨.error (.valueError "Invalid YouTube URL"), fh, []⟩
    | some vid0 =>
      match get_transcript yst vid0 none with
      | (.error e, _, attempts) =>
        ⟨.error e, fh, if attempts = 0 then [] else [.fetchTranscript]⟩
      | (.ok (video_id, video_lang, transcript), _, attempts) =>
        let ev1 := (if attempts = 0 then [] else [Ev.fetchTranscript]) ++ [Ev.summaryCacheLookup]
        match get_summary_path fh video_id with
        | some f =>
          -- summary found on disk: read it; generation and persistence skipped
          let summary := f.content
          if include_transcript then
            ⟨.ok (.bundle video_id video_lang transcript (some summary) none), fh,
              ev1 ++ [.summaryCacheHit]⟩
          else
            ⟨.ok (.text summary), fh, ev1 ++ [.summaryCacheHit]⟩
        | none =>
          let ev2 := ev1 ++ [Ev.summarizeCall]
          match summaryResult with
          | .error e =>
            if include_transcript && allow_summary_failure then
              ⟨.ok (.bundle video_id video_lang transcript none (some e)), fh, ev2⟩
            else
              ⟨.error (.other e), fh, ev2⟩
          | .ok summary =>
            if save_to_file && !(summary == "") then
              let saved := save_summary fh video_id summary metadata timestamp mtime
              if include_transcript then
                ⟨.ok (.bundle video_id video_lang transcript (some summary) none),
                  saved.1, ev2 ++ [.saveSummary]⟩
              else
                ⟨.ok (.text summary), saved.1, ev2 ++ [.saveSummary]⟩
            else
              if include_transcript then
                ⟨.ok (.bundle video_id video_lang transcript (some summary) none), fh, ev2⟩
              else
                ⟨.ok (.text summary), fh, ev2⟩

/-- The summary component of a pipeline result. -/
def resultSummary : Except PyErr AppResult → Option String
  | .ok (.text s) => some s
  | .ok (.bundle _ _ _ s _) => s
  | .error _ => none

/-! ## Theorems -/

/-- C1: for every syntactically valid YouTube reference and valid options, a
call to YouTubeSummarizer.summarize_video raises a TypeError before producing
any result, because the call at app.py:86-88 passes only the video id to
`get_transcript`, whose required `language` parameter (youtube.py:179) has no
default (and the later call at app.py:92 passes two arguments to the
one-parameter `get_summary_path`); the success path of the orchestrator is
unreachable. -/
theorem C1_summarize_video_always_typeError (url : String) (max_tokens : Option Int)
    (stf : Bool) (md : List (String × String)) (it asf : Bool)
    (hurl : is_valid_url url = true)
    (hmt : ∀ m, max_tokens = some m → 0 < m) :
    summarize_video url max_tokens stf md it asf =
      .error (.typeError "get_transcript() missing 1 required positional argument: language") := by
  obtain ⟨v, hv⟩ := Option.isSome_iff_exists.mp (by simpa [is_valid_url] using hurl)
  unfold summarize_video
  cases max_tokens with
  | none => simp [hurl, hv]
  | some m =>
    have h1 : decide (m ≤ 0) = false := by simpa using (hmt m rfl).not_le
    simp [hurl, hv, h1]

/-- Witness for C1 at a concrete reference. -/
theorem C1_witness :
    is_valid_url "https://www.youtube.com/watch?v=dQw4w9WgXcQ" = true ∧
    summarize_video "https://www.youtube.com/watch?v=dQw4w9WgXcQ" none true [] false false =
      .error (.typeError "get_transcript() missing 1 required positional argument: language") :=
  ⟨by decide,
    C1_summarize_video_always_typeError "https://www.youtube.com/watch?v=dQw4w9WgXcQ"
      none true [] false false (by decide) (fun m h => Option.noConfusion h)⟩

/-- C2 (code bug): the pipeline is not idempotent as the specification states.
Evaluating the code at the failing input: the first call already raises
TypeError (the arity defect of app.py:86-88), and even with the call sites
bound to the declared callee parameters, the dataflow of a second identical
call invokes the summarizer backend again and writes a second summary file,
because `save_summary` writes `summary_<id>_<timestamp>.md` while
`get_summary_path` only globs `summary_<id>_*.txt`, so the summary cache never
hits. -/
theorem C2_idempotence_fails_on_code :
    summarize_video "https://www.youtube.com/watch?v=dQw4w9WgXcQ" none true [] false false =
      .error (.typeError "get_transcript() missing 1 required positional argument: language") ∧
    (let yst : YTState := ⟨fun _ => none, false, ["ru"], [.ok ["hello"]], true⟩
     let r1 := summarize_video_flow yst ⟨[]⟩ (.ok "SUM")
       "https://www.youtube.com/watch?v=dQw4w9WgXcQ" none true [] false false "20240101_000000" 1
     let r2 := summarize_video_flow yst r1.fh (.ok "SUM")
       "https://www.youtube.com/watch?v=dQw4w9WgXcQ" none true [] false false "20240102_000000" 2
     Ev.saveSummary ∈ r1.events ∧ Ev.summarizeCall ∈ r2.events ∧
       Ev.saveSummary ∈ r2.events ∧ r2.fh.files.length = 2) := by
  constructor
  · rfl
  · decide

/-- The file name written by save_summary never matches the glob pattern of
get_summary_path: it ends in `.md`, the pattern requires `.txt`. -/
theorem summaryFileName_no_globMatch (vid ts : String) :
    globMatch (summaryGlobPre vid) txtSuffix (summaryFileName vid ts) = false := by
  have hmd : (".md".data) = ['.', 'm', 'd'] := rfl
  have htxt : txtSuffix = ['.', 't', 'x', 't'] := rfl
  unfold globMatch summaryFileName
  rw [hmd, htxt]
  simp [List.reverse_append, List.isPrefixOf]

/-- Globbing for `summary_<vid>_*.txt` is unaffected by a save_summary write. -/
theorem get_summary_path_after_save (st : FHState) (vid summary : String)
    (md : List (String × String)) (ts : String) (mt : Nat) :
    get_summary_path (save_summary st vid summary md ts mt).1 vid =
      get_summary_path st vid := by
  unfold get_summary_path save_summary
  congr 1
  rw [List.filter_append, List.filter_filter]
  have h3 : List.filter (fun f => globMatch (summaryGlobPre vid) txtSuffix f.name)
      [(⟨summaryFileName vid ts, mt, renderMarkdown vid summary ts md⟩ : OutFile)] = [] := by
    simp [List.filter, summaryFileName_no_globMatch]
  rw [h3, List.append_nil]
  apply List.filter_congr
  intro f _
  by_cases hg : globMatch (summaryGlobPre vid) txtSuffix f.name = true
  · have hne : f.name ≠ summaryFileName vid ts := by
      intro he
      rw [he, summaryFileName_no_globMatch] at hg
      exact Bool.false_ne_true hg
    simp [hg, hne]
  · simp [Bool.eq_false_iff.mpr hg]

/-- C3: a summary persisted by FileHandler.save_summary is never found by a
subsequent FileHandler.get_summary_path for the same video id: the written
file name `summary_<id>_<timestamp>.md` (file_handler.py:78-79) fails the glob
pattern `summary_<id>_*.txt` (file_handler.py:127), the lookup result is
unchanged by the save, and in a directory populated only by save_summary the
lookup returns absent, so the summary cache never hits. -/
theorem C3_save_then_locate_never_finds (st : FHState) (vid summary : String)
    (md : List (String × String)) (ts : String) (mt : Nat) :
    globMatch (summaryGlobPre vid) txtSuffix ((save_summary st vid summary md ts mt).2.name) = false ∧
    get_summary_path (save_summary st vid summary md ts mt).1 vid = get_summary_path st vid ∧
    (st.files = [] → get_summary_path (save_summary st vid summary md ts mt).1 vid = none) := by
  refine ⟨summaryFileName_no_globMatch vid ts, get_summary_path_after_save st vid summary md ts mt, ?_⟩
  intro h0
  rw [get_summary_path_after_save st vid summary md ts mt]
  unfold get_summary_path
  rw [h0]
  rfl

/-- Witness for C3 at a concrete state. -/
theorem C3_witness :
    (⟨[]⟩ : FHState).files = [] ∧
    get_summary_path (save_summary ⟨[]⟩ "dQw4w9WgXcQ" "S" [] "20240101_000000" 1).1 "dQw4w9WgXcQ" = none :=
  ⟨rfl, (C3_save_then_locate_never_finds ⟨[]⟩ "dQw4w9WgXcQ" "S" [] "20240101_000000" 1).2.2 rfl⟩

/-- C9: for every transcript text, storing it in the transcript cache with
_save_to_cache under some (video_id, language) pair (with the file write
succeeding) and then loading it with _load_from_cache for the same pair
returns text identical to what was stored. -/
theorem C9_transcript_cache_roundtrip (fs : Fs) (vid lang t : String) :
    ∃ fs2, save_to_cache fs vid lang t true = .ok fs2 ∧
      load_from_cache fs2 vid lang = .ok (some t) := by
  refine ⟨fsUpdate fs (get_cache_path vid lang)
    (.jsonObj [("video_id", vid), ("language", lang), ("transcript", t)]), rfl, ?_⟩
  have h1 : (("transcript" : String) == "video_id") = false := by decide
  have h2 : (("transcript" : String) == "language") = false := by decide
  have h3 : (("transcript" : String) == "transcript") = true := by decide
  unfold load_from_cache fsUpdate
  simp [List.lookup, h1, h2, h3]

/-- C10 counterexample: a cache file holding valid JSON that is not an object
(such as the array `[1, 2, 3]`) parses successfully and lacks the transcript
field, yet _load_from_cache raises an uncaught TypeError at the subscript
youtube.py:125 (only JSONDecodeError and KeyError are caught at
youtube.py:126) instead of returning absent, so the load is not a cache miss
there. -/
theorem C10_counterexample :
    load_from_cache (fsUpdate (fun _ => none) (get_cache_path "v1" "ru") .jsonNonObj)
        "v1" "ru" =
      .error "list indices must be integers or slices, not str" ∧
    ∀ o : Option String,
      load_from_cache (fsUpdate (fun _ => none) (get_cache_path "v1" "ru") .jsonNonObj)
          "v1" "ru" ≠ .ok o := by
  constructor
  · rfl
  · intro o h
    simp [load_from_cache, fsUpdate] at h

/-- C10 (amended): a transcript-cache file whose content fails JSON parsing, or
parses to a JSON object lacking the transcript field, makes _load_from_cache
return absent instead of raising (JSONDecodeError and KeyError are caught);
a file whose content is valid JSON that is not an object instead makes the
field access raise a TypeError that the except clause does not catch, so that
load propagates an error; and for every failure during _save_to_cache the
error is absorbed, so the store operation never propagates an exception. -/
theorem C10_cache_errors_absorbed (fs : Fs) (vid lang t : String)
    (fields : List (String × String)) (wOk : Bool) :
    (fs (get_cache_path vid lang) = some .corrupt →
      load_from_cache fs vid lang = .ok none) ∧
    (fs (get_cache_path vid lang) = some (.jsonObj fields) →
      fields.lookup "transcript" = none →
      load_from_cache fs vid lang = .ok none) ∧
    (fs (get_cache_path vid lang) = some .jsonNonObj →
      ∃ e, load_from_cache fs vid lang = .error e) ∧
    (∃ fs2, save_to_cache fs vid lang t wOk = .ok fs2) := by
  refine ⟨?_, ?_, ?_, ?_⟩
  · intro h
    unfold load_from_cache
    rw [h]
  · intro h hl
    unfold load_from_cache
    rw [h]
    simp [hl]
  · intro h
    unfold load_from_cache
    rw [h]
    exact ⟨_, rfl⟩
  · cases wOk with
    | true => exact ⟨_, rfl⟩
    | false => exact ⟨fs, rfl⟩

/-- Witness for the amended C10 at concrete cache states. -/
theorem C10_witness :
    (fsUpdate (fun _ => none) (get_cache_path "v1" "ru") .corrupt) (get_cache_path "v1" "ru") =
        some .corrupt ∧
    load_from_cache (fsUpdate (fun _ => none) (get_cache_path "v1" "ru") .corrupt) "v1" "ru" =
        .ok none ∧
    (∃ e, load_from_cache (fsUpdate (fun _ => none) (get_cache_path "v1" "ru") .jsonNonObj)
        "v1" "ru" = .error e) := by
  refine ⟨by simp [fsUpdate], ?_, ?_⟩
  · exact (C10_cache_errors_absorbed
      (fsUpdate (fun _ => none) (get_cache_path "v1" "ru") .corrupt)
      "v1" "ru" "t" [] true).1 (by simp [fsUpdate])
  · exact (C10_cache_errors_absorbed
      (fsUpdate (fun _ => none) (get_cache_path "v1" "ru") .jsonNonObj)
      "v1" "ru" "t" [] true).2.2.1 (by simp [fsUpdate])

/-- A successful retry loop used between 1 and n attempts. -/
theorem retryFetch_bounds :
    ∀ (l : List (Except String (List String))) (n : Nat) (d : List String) (k : Nat),
      retryFetch l n = .ok (d, k) → 1 ≤ k ∧ k ≤ n := by
  intro l
  induction l with
  | nil =>
    intro n d k h
    cases n with
    | zero => exact absurd h (by simp [retryFetch])
    | succ m => exact absurd h (by simp [retryFetch])
  | cons o os ih =>
    intro n d k h
    match n with
    | 0 => exact absurd h (by simp [retryFetch])
    | 1 =>
      cases o with
      | ok d0 =>
        simp [retryFetch] at h
        omega
      | error e => exact absurd h (by simp [retryFetch])
    | m + 2 =>
      cases o with
      | ok d0 =>
        simp [retryFetch] at h
        omega
      | error e =>
        simp only [retryFetch] at h
        match hrec : retryFetch os (m + 1) with
        | .ok (d1, k1) =>
          rw [hrec] at h
          simp at h
          have := ih (m + 1) d1 k1 hrec
          omega
        | .error e1 =>
          rw [hrec] at h
          exact absurd h (by simp)

/-- When the first `ms.length` fetch attempts fail and the next succeeds within
the bound, the loop returns that success after `ms.length + 1` attempts. -/
theorem retryFetch_success (ms : List String) (d : List String)
    (rest : List (Except String (List String))) :
    ∀ n, ms.length < n →
      retryFetch (ms.map .error ++ .ok d :: rest) n = .ok (d, ms.length + 1) := by
  induction ms with
  | nil =>
    intro n hn
    match n with
    | 1 => rfl
    | m + 2 => rfl
  | cons m0 ms ih =>
    intro n hn
    match n with
    | m + 2 =>
      have hih := ih (m + 1) (by simpa using Nat.lt_of_succ_lt_succ hn)
      simp only [List.map_cons, List.cons_append, retryFetch, List.append_eq, hih]
      simp

/-- When all five attempts fail, the loop propagates the error of the fifth. -/
theorem retryFetch_five_failures (m0 m1 m2 m3 m4 : String)
    (rest : List (Except String (List String))) :
    retryFetch ([.error m0, .error m1, .error m2, .error m3, .error m4] ++ rest) 5 =
      .error m4 := rfl

/-- The fetch path performs at most retry_times attempts. -/
theorem get_transcript_fetch_attempts_le (st : YTState) (vid : String) (lang : Option String) :
    (get_transcript_fetch st vid lang).2.2 ≤ 5 := by
  unfold get_transcript_fetch
  split
  · simp
  · split
    · simp
    · split
      · simp [retry_times]
      · next d k heq =>
        simpa [retry_times] using
          (retryFetch_bounds st.fetchOutcomes retry_times d k heq).2

/-- get_transcript performs at most retry_times fetch attempts. -/
theorem get_transcript_attempts_le (st : YTState) (vid : String) (lang : Option String) :
    (get_transcript st vid lang).2.2 ≤ 5 := by
  match lang with
  | none => exact get_transcript_fetch_attempts_le st vid none
  | some l =>
    unfold get_transcript
    dsimp only
    cases hload : load_from_cache st.cacheFs vid l with
    | error e => simp [hload]
    | ok o =>
      cases o with
      | none =>
        simp only [hload]
        exact get_transcript_fetch_attempts_le st vid (some l)
      | some t =>
        by_cases ht : t = ""
        · simp only [hload, ht]
          simp
          exact get_transcript_fetch_attempts_le st vid (some l)
        · simp [hload, ht]

/-- C6: the transcript body fetch inside get_transcript is attempted at most 5
times; when the first k attempts (k at most 4) fail transiently and attempt
k+1 succeeds, the transcript built from that attempt is returned after k+1
attempts; when all 5 attempts fail, the error of the fifth attempt is the one
propagated to the caller (wrapped by the generic except clause as
`Error fetching transcript: ...`). -/
theorem C6_fetch_retry_bound (st : YTState) (vid : String) :
    (∀ lang, (get_transcript st vid lang).2.2 ≤ 5) ∧
    (∀ (tl : String) (ms : List String) (d : List String)
        (rest : List (Except String (List String))),
      st.transcriptsDisabled = false →
      find_transcript st.available ["ru", "en"] = some tl →
      st.fetchOutcomes = ms.map .error ++ .ok d :: rest →
      ms.length ≤ 4 →
      ∃ fs2, get_transcript st vid none =
        (.ok (vid, tl, String.intercalate "\n" d), fs2, ms.length + 1)) ∧
    (∀ (tl m0 m1 m2 m3 m4 : String) (rest : List (Except String (List String))),
      st.transcriptsDisabled = false →
      find_transcript st.available ["ru", "en"] = some tl →
      st.fetchOutcomes = [.error m0, .error m1, .error m2, .error m3, .error m4] ++ rest →
      get_transcript st vid none =
        (.error (.other ("Error fetching transcript: " ++ m4)), st.cacheFs, 5)) := by
  refine ⟨get_transcript_attempts_le st vid, ?_, ?_⟩
  · intro tl ms d rest hdis hfind hout hlen
    have hretry : retryFetch st.fetchOutcomes retry_times = .ok (d, ms.length + 1) := by
      rw [hout]
      exact retryFetch_success ms d rest retry_times (by simp [retry_times]; omega)
    show ∃ fs2, get_transcript_fetch st vid none = _
    unfold get_transcript_fetch
    rw [hdis, hfind, hretry]
    exact ⟨_, rfl⟩
  · intro tl m0 m1 m2 m3 m4 rest hdis hfind hout
    have hretry : retryFetch st.fetchOutcomes retry_times = .error m4 := by
      rw [hout]
      exact retryFetch_five_failures m0 m1 m2 m3 m4 rest
    show get_transcript_fetch st vid none = _
    unfold get_transcript_fetch
    rw [hdis, hfind, hretry]
    rfl

/-- Witness for C6 at a concrete environment: two transient failures, success
on the third attempt, and a separate environment where all five attempts
fail. -/
theorem C6_witness :
    (∃ fs2,
      get_transcript
        ⟨fun _ => none, false, ["ru"], [.error "e0", .error "e1", .ok ["a", "b"]], true⟩
        "vid1" none = (.ok ("vid1", "ru", "a\nb"), fs2, 3)) ∧
    get_transcript
      ⟨fun _ => none, false, ["ru"],
        [.error "e0", .error "e1", .error "e2", .error "e3", .error "e4"], true⟩
      "vid1" none =
      (.error (.other ("Error fetching transcript: " ++ "e4")), fun _ => none, 5) := by
  constructor
  · have h := (C6_fetch_retry_bound
      ⟨fun _ => none, false, ["ru"], [.error "e0", .error "e1", .ok ["a", "b"]], true⟩
      "vid1").2.1 "ru" ["e0", "e1"] ["a", "b"] [] rfl (by decide) rfl (by decide)
    simpa using h
  · exact (C6_fetch_retry_bound
      ⟨fun _ => none, false, ["ru"],
        [.error "e0", .error "e1", .error "e2", .error "e3", .error "e4"], true⟩
      "vid1").2.2 "ru" "e0" "e1" "e2" "e3" "e4" [] rfl (by decide) rfl

/-- A language not in the track list is not found by contains. -/
theorem contains_eq_false_of_not_mem (l : List String) (a : String) (h : a ∉ l) :
    l.contains a = false := by
  rw [Bool.eq_false_iff]
  intro hc
  exact h (List.mem_of_elem_eq_true hc)

/-- C7: in get_transcript, a requested language is fetched exactly: the track
lookup receives only that language, so the resolved language equals the
requested one on success and the call fails with NoTranscriptFound when the
video has no track in that language, even when other tracks exist; with no
requested language, the track is selected from the fixed priority list `ru`
then `en` (not the provider default), and the resolved language is the
selected track's language code.  The cache-miss hypothesis keeps the fetch
path active (a cache hit returns before any track is selected). -/
theorem C7_language_negotiation (st : YTState) (vid l : String)
    (hdis : st.transcriptsDisabled = false) :
    (load_from_cache st.cacheFs vid l = .ok none →
      ((l ∈ st.available →
          ∀ d k, retryFetch st.fetchOutcomes retry_times = .ok (d, k) →
          ∃ fs2, get_transcript st vid (some l) =
            (.ok (vid, l, String.intercalate "\n" d), fs2, k)) ∧
       (l ∉ st.available →
          get_transcript st vid (some l) =
            (.error (.noTranscriptFoundErr vid), st.cacheFs, 0)))) ∧
    ("ru" ∈ st.available → find_transcript st.available ["ru", "en"] = some "ru") ∧
    ("ru" ∉ st.available → "en" ∈ st.available →
      find_transcript st.available ["ru", "en"] = some "en") ∧
    (∀ tl, find_transcript st.available ["ru", "en"] = some tl →
      ∀ d k, retryFetch st.fetchOutcomes retry_times = .ok (d, k) →
      ∃ fs2, get_transcript st vid none =
        (.ok (vid, tl, String.intercalate "\n" d), fs2, k)) := by
  refine ⟨?_, ?_, ?_, ?_⟩
  · intro hmiss
    constructor
    · intro hmem d k hretry
      have hfind : find_transcript st.available [l] = some l := by
        simp [find_transcript, List.find?, hmem]
      unfold get_transcript
      dsimp only
      rw [hmiss]
      unfold get_transcript_fetch
      rw [hdis, hfind, hretry]
      exact ⟨_, rfl⟩
    · intro hno
      have hfind : find_transcript st.available [l] = none := by
        simp [find_transcript, List.find?, hno]
      unfold get_transcript
      dsimp only
      rw [hmiss]
      unfold get_transcript_fetch
      rw [hdis, hfind]
      rfl
  · intro hru
    simp [find_transcript, List.find?, hru]
  · intro hru hen
    simp [find_transcript, List.find?, hru, hen]
  · intro tl hfind d k hretry
    show ∃ fs2, get_transcript_fetch st vid none = _
    unfold get_transcript_fetch
    rw [hdis, hfind, hretry]
    exact ⟨_, rfl⟩

/-- Witness for C7 at a concrete environment: requesting `en` fetches the `en`
track even though `ru` is available, requesting `fr` fails with
NoTranscriptFound, and with no request the priority list picks `ru`. -/
theorem C7_witness :
    (∃ fs2,
      get_transcript ⟨fun _ => none, false, ["ru", "en"], [.ok ["t"]], true⟩
        "vid1" (some "en") = (.ok ("vid1", "en", "t"), fs2, 1)) ∧
    get_transcript ⟨fun _ => none, false, ["ru", "en"], [.ok ["t"]], true⟩
      "vid1" (some "fr") =
      (.error (.noTranscriptFoundErr "vid1"), fun _ => none, 0) ∧
    (∃ fs2,
      get_transcript ⟨fun _ => none, false, ["ru", "en"], [.ok ["t"]], true⟩
        "vid1" none = (.ok ("vid1", "ru", "t"), fs2, 1)) := by
  refine ⟨?_, ?_, ?_⟩
  · have h := ((C7_language_negotiation
      ⟨fun _ => none, false, ["ru", "en"], [.ok ["t"]], true⟩ "vid1" "en" rfl).1
      rfl).1 (by decide) ["t"] 1 rfl
    simpa using h
  · exact ((C7_language_negotiation
      ⟨fun _ => none, false, ["ru", "en"], [.ok ["t"]], true⟩ "vid1" "fr" rfl).1
      rfl).2 (by decide)
  · have h := (C7_language_negotiation
      ⟨fun _ => none, false, ["ru", "en"], [.ok ["t"]], true⟩ "vid1" "ru" rfl).2.2.2
      "ru" (by decide) ["t"] 1 rfl
    simpa using h

/-- Prepending text free of the letter y (such as a scheme or `www.` prefix)
does not change the result of searching for a pattern whose literal core
starts with y. -/
theorem searchPat_prepend (needle : List Char) (excl : Char → Bool) (pre u : List Char)
    (hh : needle.head? = some 'y') (hp : 'y' ∉ pre) :
    searchPat needle excl (pre ++ u) = searchPat needle excl u := by
  match needle, hh with
  | c0 :: n1, hh =>
    have hc0 : c0 = 'y' := by simpa using hh
    subst hc0
    induction pre with
    | nil => rfl
    | cons c cs ih =>
      have hc : ('y' == c) = false := by
        have hcy : c ≠ 'y' := fun h => hp (h ▸ List.mem_cons_self c cs)
        exact beq_eq_false_iff_ne.mpr (fun h => hcy h.symm)
      have hpre : ('y' :: n1).isPrefixOf (c :: (cs ++ u)) = false := by
        simp [List.isPrefixOf, hc]
      rw [List.cons_append]
      simp only [searchPat, hpre, Bool.false_eq_true, if_false]
      exact ih (fun h => hp (List.mem_cons_of_mem c h))

/-- Searching a string that starts with the literal core of the pattern
captures the maximal non-excluded run right after it (when non-empty). -/
theorem searchPat_exact (needle : List Char) (excl : Char → Bool) (rest : List Char)
    (hne : needle ≠ [])
    (hcap : (rest.takeWhile (fun c => !excl c)).isEmpty = false) :
    searchPat needle excl (needle ++ rest) = some (rest.takeWhile (fun c => !excl c)) := by
  match needle, hne with
  | n0 :: n1, _ =>
    have hpre : (n0 :: n1).isPrefixOf ((n0 :: n1) ++ rest) = true :=
      List.isPrefixOf_iff_prefix.mpr (List.prefix_append _ _)
    have hdrop : ((n0 :: n1) ++ rest).drop (n0 :: n1).length = rest := List.drop_left _ _
    rw [List.cons_append]
    rw [List.cons_append] at hpre hdrop
    simp only [searchPat, hpre, if_true, hdrop, hcap, Bool.false_eq_true, if_false]

/-- A run of characters satisfying the predicate followed by a break character
is taken up to the break. -/
theorem takeWhile_append_break (p : Char → Bool) (l t : List Char) (c : Char)
    (h : ∀ x ∈ l, p x = true) (hc : p c = false) :
    (l ++ c :: t).takeWhile p = l := by
  induction l with
  | nil => simp [List.takeWhile, hc]
  | cons a as ih =>
    have ha : p a = true := h a (List.mem_cons_self a as)
    simp [List.takeWhile, ha, ih (fun x hx => h x (List.mem_cons_of_mem a hx))]

/-- All four URL patterns have a literal core starting with y, so a y-free
prefix does not change the pattern loop result. -/
theorem extractByPatterns_prepend (pre u : List Char) (hp : 'y' ∉ pre) :
    extractByPatterns (pre ++ u) = extractByPatterns u := by
  unfold extractByPatterns
  rw [searchPat_prepend watchNeedle _ pre u rfl hp,
    searchPat_prepend embedNeedle _ pre u rfl hp,
    searchPat_prepend shortNeedle _ pre u rfl hp,
    searchPat_prepend oldNeedle _ pre u rfl hp]

/-- A URL whose text starts with the watch-pattern core is matched by the
first pattern. -/
theorem extractByPatterns_watch (x : List Char)
    (hcap : (x.takeWhile (fun c => !(c == '&'))).isEmpty = false) :
    extractByPatterns (watchNeedle ++ x) = some (x.takeWhile (fun c => !(c == '&'))) := by
  unfold extractByPatterns
  rw [searchPat_exact watchNeedle _ x (by decide) hcap]

/-- The scheme and www prefix variants of the testable property on URL shapes. -/
def prefixVariants : List (List Char) :=
  [[], "http://".data, "https://".data, "www.".data, "http://www.".data, "https://www.".data]

/-- C8 counterexample: appending the trailing query parameter `&t=123` to an
embed URL changes the extracted identifier, because the embed capture class
`[^/?]+` does not exclude the ampersand; the claimed invariance fails for this
URL shape. -/
theorem C8_counterexample :
    extract_video_id "https://www.youtube.com/embed/dQw4w9WgXcQ" = some "dQw4w9WgXcQ" ∧
    extract_video_id "https://www.youtube.com/embed/dQw4w9WgXcQ&t=123" =
      some "dQw4w9WgXcQ&t=123" ∧
    ("dQw4w9WgXcQ&t=123" : String) ≠ "dQw4w9WgXcQ" := by
  refine ⟨by decide, by decide, by decide⟩

/-- C8 (amended): for every supported URL shape, extract_video_id returns the
same identifier for the http and https variants, with and without the www.
prefix (first conjunct, for any base URL the pattern loop matches); appending
a trailing `&t=123` additionally preserves the identifier for the watch shape
(second conjunct); for the embed, short-link and legacy shapes only
`?`-separated trailing parameters preserve it (third conjunct), an appended
`&t=123` being absorbed into the identifier instead. -/
theorem C8_scheme_www_invariance :
    (∀ (u v pre : List Char), pre ∈ prefixVariants → extractByPatterns u = some v →
      extract_video_id (String.mk (pre ++ u)) = some (String.mk v) ∧
      extract_video_id (String.mk u) = some (String.mk v)) ∧
    (∀ (id pre : List Char), pre ∈ prefixVariants → id ≠ [] → (∀ c ∈ id, c ≠ '&') →
      extract_video_id (String.mk (pre ++ (watchNeedle ++ id))) = some (String.mk id) ∧
      extract_video_id (String.mk (pre ++ (watchNeedle ++ (id ++ "&t=123".data)))) =
        some (String.mk id)) ∧
    (extract_video_id "https://www.youtube.com/embed/dQw4w9WgXcQ?t=123" = some "dQw4w9WgXcQ" ∧
     extract_video_id "https://youtu.be/dQw4w9WgXcQ?t=123" = some "dQw4w9WgXcQ" ∧
     extract_video_id "https://www.youtube.com/v/dQw4w9WgXcQ?t=123" = some "dQw4w9WgXcQ") := by
  refine ⟨?_, ?_, by decide, by decide, by decide⟩
  · intro u v pre hpre hu
    have hy : 'y' ∉ pre := by fin_cases hpre <;> decide
    constructor
    · unfold extract_video_id
      dsimp only
      rw [extractByPatterns_prepend pre u hy, hu]
    · unfold extract_video_id
      dsimp only
      rw [hu]
  · intro id pre hpre hne hamp
    have hy : 'y' ∉ pre := by fin_cases hpre <;> decide
    have hid_tw : id.takeWhile (fun c => !(c == '&')) = id :=
      List.takeWhile_eq_self_iff.mpr (fun c hc => by simp [hamp c hc])
    have hid_ne : (id.takeWhile (fun c => !(c == '&'))).isEmpty = false := by
      rw [hid_tw]
      cases id with
      | nil => exact absurd rfl hne
      | cons a as => rfl
    have h1 : extractByPatterns (watchNeedle ++ id) = some id := by
      rw [extractByPatterns_watch id hid_ne, hid_tw]
    have htail : (id ++ "&t=123".data).takeWhile (fun c => !(c == '&')) = id := by
      have hamp123 : "&t=123".data = '&' :: "t=123".data := rfl
      rw [hamp123]
      exact takeWhile_append_break _ id _ '&' (fun x hx => by simp [hamp x hx]) (by decide)
    have h2ne : ((id ++ "&t=123".data).takeWhile (fun c => !(c == '&'))).isEmpty = false := by
      rw [htail]
      cases id with
      | nil => exact absurd rfl hne
      | cons a as => rfl
    have h2 : extractByPatterns (watchNeedle ++ (id ++ "&t=123".data)) = some id := by
      rw [extractByPatterns_watch _ h2ne, htail]
    constructor
    · unfold extract_video_id
      dsimp only
      rw [extractByPatterns_prepend pre _ hy, h1]
    · unfold extract_video_id
      dsimp only
      rw [extractByPatterns_prepend pre _ hy, h2]

/-- Witness for the amended C8 at concrete URLs. -/
theorem C8_witness :
    extract_video_id (String.mk ("https://www.".data ++ "youtu.be/dQw4w9WgXcQ".data)) =
      some (String.mk "dQw4w9WgXcQ".data) ∧
    extract_video_id
        (String.mk ("https://".data ++ (watchNeedle ++ ("dQw4w9WgXcQ".data ++ "&t=123".data)))) =
      some (String.mk "dQw4w9WgXcQ".data) := by
  constructor
  · exact ((C8_scheme_www_invariance.1 "youtu.be/dQw4w9WgXcQ".data "dQw4w9WgXcQ".data
      "https://www.".data (by decide) (by decide))).1
  · exact ((C8_scheme_www_invariance.2.1 "dQw4w9WgXcQ".data "https://".data
      (by decide) (by decide) (by decide))).2

/-- A successful fetch path used at least one fetch attempt. -/
theorem get_transcript_fetch_ok_pos (st : YTState) (vid : String) (lang : Option String)
    (r : String × String × String) (fs2 : Fs) (k : Nat)
    (h : get_transcript_fetch st vid lang = (.ok r, fs2, k)) : 1 ≤ k := by
  unfold get_transcript_fetch at h
  split at h
  · simp at h
  · split at h
    · simp at h
    · split at h
      · simp at h
      · next d k0 heq =>
        have hb := (retryFetch_bounds st.fetchOutcomes retry_times d k0 heq).1
        simp only [Prod.mk.injEq] at h
        omega

/-- get_transcript returns the video id it was given. -/
theorem get_transcript_ok_id (st : YTState) (vid : String) (lang : Option String)
    (a b c : String) (fs2 : Fs) (k : Nat)
    (h : get_transcript st vid lang = (.ok (a, b, c), fs2, k)) : a = vid := by
  have hfetch : ∀ fs3 k3, get_transcript_fetch st vid lang = (.ok (a, b, c), fs3, k3) → a = vid := by
    intro fs3 k3 hf
    unfold get_transcript_fetch at hf
    split at hf
    · simp at hf
    · split at hf
      · simp at hf
      · split at hf
        · simp at hf
        · simp only [Prod.mk.injEq, Except.ok.injEq] at hf
          exact hf.1.1.symm
  unfold get_transcript at h
  match lang, h with
  | none, h => exact hfetch fs2 k h
  | some l, h =>
    dsimp only at h
    cases hload : load_from_cache st.cacheFs vid l with
    | error e =>
      rw [hload] at h
      simp at h
    | ok o =>
      cases o with
      | none =>
        rw [hload] at h
        exact hfetch fs2 k h
      | some t =>
        rw [hload] at h
        by_cases ht : t = ""
        · simp [ht] at h
          exact hfetch fs2 k h
        · simp [ht] at h
          exact h.1.1.symm

/-- C4 counterexample: a concrete run of the pipeline dataflow in which the
summary-cache lookup hits and yet the transcript fetch has been invoked — the
fetch (app.py:86) precedes the lookup (app.py:92), because the lookup wants
the resolved transcript language, so the claim that on a hit the transcript
fetch is never invoked in that run is false. -/
theorem C4_counterexample :
    (let out := summarize_video_flow
      ⟨fun _ => none, false, ["ru"], [.ok ["hello"]], true⟩
      ⟨[⟨"summary_vid1_20240101.txt".data, 0, "cached"⟩]⟩
      (.ok "S") "https://youtu.be/vid1" none true [] false false "t" 1
     Ev.summaryCacheHit ∈ out.events ∧ Ev.fetchTranscript ∈ out.events ∧
       out.result = .ok (.text "cached")) := by
  decide

/-- C4 (amended): in every run of the pipeline dataflow in which the
summary-cache lookup finds a persisted summary, the cached text is returned
and the summarizer backend is not invoked in that run; the transcript fetch,
however, is not skipped — it has already run before the lookup, which uses
the transcript's resolved language. -/
theorem C4_amended_hit_skips_summarizer (yst : YTState) (fh : FHState)
    (sr : Except String String) (url : String) (mt : Option Int) (stf : Bool)
    (md : List (String × String)) (it asf : Bool) (ts : String) (m : Nat)
    (vid : String) (f : OutFile) (a b c : String) (fs2 : Fs) (k : Nat)
    (hmt : ∀ x, mt = some x → 0 < x)
    (hex : extract_video_id url = some vid)
    (hgt : get_transcript yst vid none = (.ok (a, b, c), fs2, k))
    (hsp : get_summary_path fh vid = some f) :
    (Ev.summaryCacheHit ∈ (summarize_video_flow yst fh sr url mt stf md it asf ts m).events) ∧
    (Ev.summarizeCall ∉ (summarize_video_flow yst fh sr url mt stf md it asf ts m).events) ∧
    (Ev.fetchTranscript ∈ (summarize_video_flow yst fh sr url mt stf md it asf ts m).events) ∧
    resultSummary (summarize_video_flow yst fh sr url mt stf md it asf ts m).result =
      some f.content := by
  have hvu : is_valid_url url = true := by simp [is_valid_url, hex]
  have ha : a = vid := get_transcript_ok_id yst vid none a b c fs2 k hgt
  have hk : 1 ≤ k := get_transcript_fetch_ok_pos yst vid none (a, b, c) fs2 k hgt
  have hk0 : ¬(k = 0) := by omega
  unfold summarize_video_flow
  rw [hvu]
  cases mt with
  | none =>
    simp only [Bool.not_true, Bool.false_eq_true, if_false, hex, hgt]
    rw [ha, hsp]
    simp only [hk0, if_false]
    cases it <;> simp [resultSummary]
  | some m0 =>
    have hm0 : decide (m0 ≤ 0) = false := by simpa using (hmt m0 rfl).not_le
    simp only [Bool.not_true, Bool.false_eq_true, if_false, hm0, hex, hgt]
    rw [ha, hsp]
    simp only [hk0, if_false]
    cases it <;> simp [resultSummary]

/-- Witness for the amended C4 at a concrete environment. -/
theorem C4_witness :
    resultSummary (summarize_video_flow
      ⟨fun _ => none, false, ["ru"], [.ok ["hello"]], true⟩
      ⟨[⟨"summary_vid1_20240101.txt".data, 0, "cached"⟩]⟩
      (.ok "S") "https://youtu.be/vid1" none true [] false false "t" 1).result =
      some "cached" := by
  have h := (C4_amended_hit_skips_summarizer
    ⟨fun _ => none, false, ["ru"], [.ok ["hello"]], true⟩
    ⟨[⟨"summary_vid1_20240101.txt".data, 0, "cached"⟩]⟩
    (.ok "S") "https://youtu.be/vid1" none true [] false false "t" 1
    "vid1" ⟨"summary_vid1_20240101.txt".data, 0, "cached"⟩
    "vid1" "ru" "hello"
    (fsUpdate (fun _ => none) (get_cache_path "vid1" "ru")
      (.jsonObj [("video_id", "vid1"), ("language", "ru"), ("transcript", "hello")])) 1
    (fun x h => Option.noConfusion h) (by decide) rfl rfl).2.2.2
  simpa using h

/-- C5: in every run of the pipeline dataflow in which summary generation
raises (the summary cache missed and the summarizer backend fails with error
e): if the caller set both include_transcript and allow_summary_failure, the
pipeline does not raise and returns the bundle with the identifier, the
resolved language, the transcript, an absent summary and a populated
summary-error field (app.py:108-128); with either flag unset, the generation
failure propagates to the caller (app.py:111-112 re-raises, app.py:135-137
re-raises again). -/
theorem C5_tolerate_summary_failure (yst : YTState) (fh : FHState) (url : String)
    (mt : Option Int) (stf : Bool) (md : List (String × String)) (ts : String) (m : Nat)
    (vid : String) (a b c : String) (fs2 : Fs) (k : Nat) (e : String)
    (hmt : ∀ x, mt = some x → 0 < x)
    (hex : extract_video_id url = some vid)
    (hgt : get_transcript yst vid none = (.ok (a, b, c), fs2, k))
    (hmiss : get_summary_path fh vid = none) :
    (summarize_video_flow yst fh (.error e) url mt stf md true true ts m).result =
      .ok (.bundle a b c none (some e)) ∧
    (∀ it asf : Bool, (it && asf) = false →
      (summarize_video_flow yst fh (.error e) url mt stf md it asf ts m).result =
        .error (.other e)) := by
  have hvu : is_valid_url url = true := by simp [is_valid_url, hex]
  have ha : a = vid := get_transcript_ok_id yst vid none a b c fs2 k hgt
  constructor
  · unfold summarize_video_flow
    rw [hvu]
    cases mt with
    | none =>
      simp only [Bool.not_true, Bool.false_eq_true, if_false, hex, hgt]
      rw [ha, hmiss]
      rfl
    | some m0 =>
      have hm0 : decide (m0 ≤ 0) = false := by simpa using (hmt m0 rfl).not_le
      simp only [Bool.not_true, Bool.false_eq_true, if_false, hm0, hex, hgt]
      rw [ha, hmiss]
      rfl
  · intro it asf hflags
    unfold summarize_video_flow
    rw [hvu]
    cases mt with
    | none =>
      simp only [Bool.not_true, Bool.false_eq_true, if_false, hex, hgt]
      rw [ha, hmiss]
      simp [hflags]
    | some m0 =>
      have hm0 : decide (m0 ≤ 0) = false := by simpa using (hmt m0 rfl).not_le
      simp only [Bool.not_true, Bool.false_eq_true, if_false, hm0, hex, hgt]
      rw [ha, hmiss]
      simp [hflags]

/-- Witness for C5 at a concrete environment where generation fails. -/
theorem C5_witness :
    (summarize_video_flow ⟨fun _ => none, false, ["ru"], [.ok ["hello"]], true⟩ ⟨[]⟩
      (.error "boom") "https://youtu.be/vid1" none true [] true true "t" 1).result =
      .ok (.bundle "vid1" "ru" "hello" none (some "boom")) ∧
    (summarize_video_flow ⟨fun _ => none, false, ["ru"], [.ok ["hello"]], true⟩ ⟨[]⟩
      (.error "boom") "https://youtu.be/vid1" none true [] true false "t" 1).result =
      .error (.other "boom") := by
  have h := C5_tolerate_summary_failure
    ⟨fun _ => none, false, ["ru"], [.ok ["hello"]], true⟩ ⟨[]⟩
    "https://youtu.be/vid1" none true [] "t" 1
    "vid1" "vid1" "ru" "hello"
    (fsUpdate (fun _ => none) (get_cache_path "vid1" "ru")
      (.jsonObj [("video_id", "vid1"), ("language", "ru"), ("transcript", "hello")])) 1
    "boom" (fun x hx => Option.noConfusion hx) (by decide) rfl rfl
  exact ⟨h.1, h.2 true false rfl⟩
